import Mathlib

/-!
Verification development for the NotebookLlama-improved document pipeline.

Python text values are modelled as `List Char` (named `Text` below); Python
floats appearing in scores and thresholds are modelled as exact rationals.
Each definition is a shallow embedding of the correspondingly named function
of the repository (file and line references in the doc comments).
-/

set_option maxHeartbeats 1000000
set_option maxRecDepth 20000

/-- Python strings are modelled as lists of characters. -/
abbrev Text := List Char

/-- The characters Python's `str.split()` / `str.strip()` treat as whitespace
(ASCII subset, which covers every string in this development). -/
def isPySpace (c : Char) : Bool :=
  c = ' ' || c = '\t' || c = '\n' || c = '\r' || c = '\x0b' || c = '\x0c'

/-- Python `s.strip()`: drop whitespace from both ends. -/
def pyStrip (s : Text) : Text :=
  ((s.dropWhile isPySpace).reverse.dropWhile isPySpace).reverse

/-- Helper for `pySplit`: `cur` is the current (reversed) in-progress word. -/
def pySplitAux : Text → Text → List Text
  | [], cur => if cur.isEmpty then [] else [cur.reverse]
  | c :: rest, cur =>
    if isPySpace c then
      if cur.isEmpty then pySplitAux rest []
      else cur.reverse :: pySplitAux rest []
    else pySplitAux rest (c :: cur)

/-- Python `s.split()` with no separator: split on whitespace runs, no empty
words. -/
def pySplit (s : Text) : List Text :=
  pySplitAux s []

/-- Helper for `joinSpace`. -/
def joinSpaceAux : List Text → Text
  | [] => []
  | w :: ws => ' ' :: (w ++ joinSpaceAux ws)

/-- Python `' '.join(ws)`. -/
def joinSpace : List Text → Text
  | [] => []
  | w :: ws => w ++ joinSpaceAux ws

/-- Python `s.lower()` (ASCII). -/
def pyLower (s : Text) : Text :=
  s.map Char.toLower

/-- `' '.join(content.split())`: the whitespace-normalized content named by the
spec's chunk round-trip property. -/
def normalizeWs (content : Text) : Text :=
  joinSpace (pySplit content)

/-! ## The content chunker

`PostgreSQLDocumentManager._add_to_vector_store`
(src/notebookllama/postgres_manager.py, lines 311-329): greedily accumulate
whitespace-split words; once the running size (each word costs `len(word)+1`)
reaches `max_chunk_size`, close the chunk as `' '.join(current_chunk)`; a
non-empty remainder becomes the final chunk. -/

/-- The word loop of `_add_to_vector_store`. Arguments: remaining words,
`current_chunk`, `current_size`, accumulated `content_chunks`. -/
def chunkWordsLoop (maxSize : Nat) : List Text → List Text → Nat → List Text → List Text
  | [], cur, _, chunks =>
    if cur.isEmpty then chunks else chunks ++ [joinSpace cur]
  | w :: ws, cur, size, chunks =>
    if maxSize ≤ size + w.length + 1 then
      chunkWordsLoop maxSize ws [] 0 (chunks ++ [joinSpace (cur ++ [w])])
    else
      chunkWordsLoop maxSize ws (cur ++ [w]) (size + w.length + 1) chunks

/-- The chunk list produced for a document's content by
`_add_to_vector_store` (`max_chunk_size = 3000` at the call site). -/
def contentChunks (maxSize : Nat) (content : Text) : List Text :=
  chunkWordsLoop maxSize (pySplit content) [] 0 []

/-! Round-trip machinery: joining texts with a single space, where an empty
side disappears, is the operation `glue`. -/

/-- Concatenate two texts with a single space unless one side is empty. -/
def glue (a b : Text) : Text :=
  if a.isEmpty then b else if b.isEmpty then a else a ++ ' ' :: b

theorem glue_nil_left (b : Text) : glue [] b = b := by
  simp [glue]

theorem glue_nil_right (a : Text) : glue a [] = a := by
  cases a <;> simp [glue]

theorem glue_assoc (a b c : Text) : glue (glue a b) c = glue a (glue b c) := by
  rcases a with _ | ⟨x, xs⟩ <;> rcases b with _ | ⟨y, ys⟩ <;> rcases c with _ | ⟨z, zs⟩ <;>
    simp [glue, List.append_assoc]

/-- Every word emitted by `pySplitAux` is non-empty. -/
theorem pySplitAux_ne_nil (s : Text) : ∀ cur, ∀ w ∈ pySplitAux s cur, w ≠ [] := by
  induction s with
  | nil =>
    intro cur w hw
    rcases cur with _ | ⟨c, cs⟩ <;> simp [pySplitAux] at hw
    subst hw; simp
  | cons c rest ih =>
    intro cur w hw
    cases hc : isPySpace c
    · simp [pySplitAux, hc] at hw
      exact ih _ w hw
    · rcases cur with _ | ⟨d, ds⟩
      · simp [pySplitAux, hc] at hw
        exact ih _ w hw
      · simp [pySplitAux, hc] at hw
        rcases hw with h | h
        · subst h; simp
        · exact ih _ w h

/-- Every word of a Python whitespace split is non-empty. -/
theorem pySplit_ne_nil (s : Text) : ∀ w ∈ pySplit s, w ≠ [] :=
  pySplitAux_ne_nil s []

theorem joinSpaceAux_append (xs ys : List Text) :
    joinSpaceAux (xs ++ ys) = joinSpaceAux xs ++ joinSpaceAux ys := by
  induction xs with
  | nil => simp [joinSpaceAux]
  | cons x xs ih => simp [joinSpaceAux, ih]

theorem joinSpace_single (t : Text) : joinSpace [t] = t := by
  simp [joinSpace, joinSpaceAux]

/-- Joining a non-empty list of non-empty words gives a non-empty text. -/
theorem joinSpace_ne_nil (ws : List Text) (hne : ws ≠ [])
    (hw : ∀ w ∈ ws, w ≠ []) : joinSpace ws ≠ [] := by
  rcases ws with _ | ⟨w, ws⟩
  · exact absurd rfl hne
  · have hwne : w ≠ [] := hw w (by simp)
    rcases w with _ | ⟨c, cs⟩
    · exact absurd rfl hwne
    · simp [joinSpace]

/-- Space-joining distributes over append as `glue` when all words are
non-empty. -/
theorem joinSpace_append (xs ys : List Text) (hxs : ∀ w ∈ xs, w ≠ [])
    (hys : ∀ w ∈ ys, w ≠ []) :
    joinSpace (xs ++ ys) = glue (joinSpace xs) (joinSpace ys) := by
  rcases xs with _ | ⟨x, xs⟩
  · simp [glue_nil_left, joinSpace]
  · rcases ys with _ | ⟨y, ys⟩
    · simp [joinSpace, glue_nil_right]
    · have hxne : joinSpace (x :: xs) ≠ [] :=
        joinSpace_ne_nil _ (by simp) hxs

      have hyne : joinSpace (y :: ys) ≠ [] :=
        joinSpace_ne_nil _ (by simp) hys
      rw [glue, if_neg (by simpa using hxne), if_neg (by simpa using hyne)]
      show joinSpace (x :: (xs ++ y :: ys)) = _
      simp only [joinSpace, joinSpaceAux_append, joinSpaceAux]
      simp [List.append_assoc]

/-- The accumulating chunk loop, seen through `joinSpace`: the chunks so far
glued with the words not yet consumed. -/
theorem chunkWordsLoop_join (maxSize : Nat) (ws : List Text) :
    ∀ (cur : List Text) (size : Nat) (chunks : List Text),
    (∀ w ∈ ws, w ≠ []) → (∀ w ∈ cur, w ≠ []) → (∀ t ∈ chunks, t ≠ []) →
    joinSpace (chunkWordsLoop maxSize ws cur size chunks)
      = glue (joinSpace chunks) (joinSpace (cur ++ ws)) := by
  induction ws with
  | nil =>
    intro cur size chunks _ hcur hchunks
    rcases cur with _ | ⟨w, cur⟩
    · simp [chunkWordsLoop, joinSpace, glue_nil_right]
    · have h1 : joinSpace (w :: cur) ≠ [] := joinSpace_ne_nil _ (by simp) hcur
      simp only [chunkWordsLoop, List.isEmpty_cons, Bool.false_eq_true, if_false,
        List.append_nil]
      rw [joinSpace_append chunks [joinSpace (w :: cur)] hchunks (by simpa using h1)]
      rw [joinSpace_single]
  | cons w ws ih =>
    intro cur size chunks hws hcur hchunks
    have hwne : w ≠ [] := hws w (by simp)
    have hws' : ∀ x ∈ ws, x ≠ [] := fun x hx => hws x (by simp [hx])
    have hcur' : ∀ x ∈ cur ++ [w], x ≠ [] := by
      intro x hx
      rcases List.mem_append.mp hx with h | h
      · exact hcur x h
      · simp at h; subst h; exact hwne
    by_cases hsz : maxSize ≤ size + w.length + 1
    · have hclose : joinSpace (cur ++ [w]) ≠ [] :=
        joinSpace_ne_nil _ (by simp) hcur'
      have hchunks' : ∀ t ∈ chunks ++ [joinSpace (cur ++ [w])], t ≠ [] := by
        intro t ht
        rcases List.mem_append.mp ht with h | h
        · exact hchunks t h
        · simp at h; subst h; exact hclose
      rw [chunkWordsLoop, if_pos hsz]
      rw [ih [] 0 _ hws' (by simp) hchunks']
      rw [joinSpace_append chunks [joinSpace (cur ++ [w])] hchunks (by simpa using hclose)]
      rw [joinSpace_single, glue_assoc]
      simp only [List.nil_append]
      rw [← joinSpace_append (cur ++ [w]) ws hcur' hws']
      simp [List.append_assoc, joinSpace]
    · rw [chunkWordsLoop, if_neg hsz]
      rw [ih (cur ++ [w]) _ chunks hws' hcur' hchunks]
      simp [List.append_assoc]

/-- General round-trip: joining the chunker's output with single spaces
reconstructs the whitespace-normalized content. Shared helper for the
round-trip and scenario claims. -/
theorem contentChunks_join (maxSize : Nat) (content : Text) :
    joinSpace (contentChunks maxSize content) = normalizeWs content := by
  unfold contentChunks normalizeWs
  rw [chunkWordsLoop_join maxSize (pySplit content) [] 0 []
    (pySplit_ne_nil content) (by simp) (by simp)]
  rw [show joinSpace ([] : List Text) = [] from rfl, glue_nil_left, List.nil_append]

/-- Total size of a word list as the chunk loop counts it: each word costs
`len(word) + 1`. -/
def wordsMass : List Text → Nat
  | [] => 0
  | w :: ws => w.length + 1 + wordsMass ws

theorem joinSpaceAux_length (ws : List Text) :
    (joinSpaceAux ws).length = wordsMass ws := by
  induction ws with
  | nil => simp [joinSpaceAux, wordsMass]
  | cons w ws ih => simp [joinSpaceAux, wordsMass, ih]; omega

theorem joinSpace_length_cons (w : Text) (ws : List Text) :
    (joinSpace (w :: ws)).length = w.length + wordsMass ws := by
  simp [joinSpace, joinSpaceAux_length]

theorem wordsMass_append (xs ys : List Text) :
    wordsMass (xs ++ ys) = wordsMass xs + wordsMass ys := by
  induction xs with
  | nil => simp [wordsMass]
  | cons x xs ih => simp [wordsMass, ih]; omega

theorem wordsMass_replicate (n : Nat) (w : Text) :
    wordsMass (List.replicate n w) = n * (w.length + 1) := by
  induction n with
  | zero => simp [wordsMass]
  | succ n ih => rw [List.replicate_succ, wordsMass, ih]; ring

/-- Consuming a batch of words whose running total stays strictly below the
ceiling never closes a chunk. -/
theorem chunkWordsLoop_consume (m : Nat) (ws₁ : List Text) :
    ∀ (ws₂ : List Text) (cur : List Text) (size : Nat) (chunks : List Text),
    size + wordsMass ws₁ < m →
    chunkWordsLoop m (ws₁ ++ ws₂) cur size chunks
      = chunkWordsLoop m ws₂ (cur ++ ws₁) (size + wordsMass ws₁) chunks := by
  induction ws₁ with
  | nil => intro ws₂ cur size chunks _; simp [wordsMass]
  | cons w ws₁ ih =>
    intro ws₂ cur size chunks h
    have hlt : ¬ m ≤ size + w.length + 1 := by
      simp [wordsMass] at h; omega
    rw [List.cons_append, chunkWordsLoop, if_neg hlt]
    rw [ih ws₂ (cur ++ [w]) (size + w.length + 1) chunks (by simp [wordsMass] at h ⊢; omega)]
    simp only [List.append_assoc, List.singleton_append, wordsMass]
    congr 1
    omega

/-- A word that pushes the running size to the ceiling closes the chunk. -/
theorem chunkWordsLoop_close (m : Nat) (w : Text) (ws : List Text)
    (cur : List Text) (size : Nat) (chunks : List Text)
    (h : m ≤ size + w.length + 1) :
    chunkWordsLoop m (w :: ws) cur size chunks
      = chunkWordsLoop m ws [] 0 (chunks ++ [joinSpace (cur ++ [w])]) := by
  rw [chunkWordsLoop, if_pos h]

theorem chunkWordsLoop_final (m : Nat) (w : Text) (cur : List Text)
    (size : Nat) (chunks : List Text) :
    chunkWordsLoop m [] (w :: cur) size chunks = chunks ++ [joinSpace (w :: cur)] := by
  simp [chunkWordsLoop]

/-- Splitting a run of non-space characters extends the current word. -/
theorem pySplitAux_nospace (w : Text) (hw : ∀ c ∈ w, isPySpace c = false) :
    ∀ (s : Text) (cur : Text), pySplitAux (w ++ s) cur = pySplitAux s (w.reverse ++ cur) := by
  induction w with
  | nil => intro s cur; simp
  | cons c w ih =>
    intro s cur
    have hc : isPySpace c = false := hw c (by simp)
    have hw' : ∀ d ∈ w, isPySpace d = false := fun d hd => hw d (by simp [hd])
    rw [List.cons_append, pySplitAux, if_neg (by simp [hc])]
    rw [ih hw' s (c :: cur)]
    simp

/-- Splitting the space-joined tail with a non-empty current word emits that
word and then the tail words. -/
theorem pySplitAux_joinSpaceAux (ws : List Text)
    (h : ∀ w ∈ ws, w ≠ [] ∧ ∀ c ∈ w, isPySpace c = false) :
    ∀ (cur : Text), cur ≠ [] → pySplitAux (joinSpaceAux ws) cur = cur.reverse :: ws := by
  induction ws with
  | nil =>
    intro cur hcur
    rcases cur with _ | ⟨c, cs⟩
    · exact absurd rfl hcur
    · simp [joinSpaceAux, pySplitAux]
  | cons w ws ih =>
    intro cur hcur
    obtain ⟨hwne, hwsp⟩ := h w (by simp)
    have h' : ∀ x ∈ ws, x ≠ [] ∧ ∀ c ∈ x, isPySpace c = false :=
      fun x hx => h x (by simp [hx])
    rcases cur with _ | ⟨c, cs⟩
    · exact absurd rfl hcur
    · rw [joinSpaceAux, pySplitAux, if_pos (by simp [isPySpace])]
      rw [if_neg (by simp)]
      rw [pySplitAux_nospace w hwsp (joinSpaceAux ws) [], List.append_nil]
      rw [ih h' w.reverse (by simpa using hwne)]
      simp

/-- Python-splitting the space-join of non-empty space-free words recovers
exactly those words. -/
theorem pySplit_joinSpace (ws : List Text)
    (h : ∀ w ∈ ws, w ≠ [] ∧ ∀ c ∈ w, isPySpace c = false) :
    pySplit (joinSpace ws) = ws := by
  rcases ws with _ | ⟨w, ws⟩
  · rfl
  · obtain ⟨hwne, hwsp⟩ := h w (by simp)
    have h' : ∀ x ∈ ws, x ≠ [] ∧ ∀ c ∈ x, isPySpace c = false :=
      fun x hx => h x (by simp [hx])
    unfold pySplit joinSpace
    rw [pySplitAux_nospace w hwsp (joinSpaceAux ws) [], List.append_nil]
    rw [pySplitAux_joinSpaceAux ws h' w.reverse (by simpa using hwne)]
    simp

theorem joinSpace_length (ws : List Text) (h : ws ≠ []) :
    (joinSpace ws).length = wordsMass ws - 1 := by
  rcases ws with _ | ⟨w, ws⟩
  · exact absurd rfl h
  · rw [joinSpace_length_cons, wordsMass]
    omega

theorem chunkWordsLoop_final_ne (m : Nat) (cur : List Text) (h : cur ≠ [])
    (size : Nat) (chunks : List Text) :
    chunkWordsLoop m [] cur size chunks = chunks ++ [joinSpace cur] := by
  rcases cur with _ | ⟨w, cur⟩
  · exact absurd rfl h
  · simp [chunkWordsLoop]

/-- One full chunk cycle: `k` words stay below the ceiling, the `k+1`-st
reaches it and closes the chunk. -/
theorem chunk_cycle (m : Nat) (w : Text) (k : Nat) (rest : List Text)
    (chunks : List Text) (hlt : k * (w.length + 1) < m)
    (hge : m ≤ k * (w.length + 1) + w.length + 1) :
    chunkWordsLoop m (List.replicate k w ++ (w :: rest)) [] 0 chunks
      = chunkWordsLoop m rest [] 0 (chunks ++ [joinSpace (List.replicate (k + 1) w)]) := by
  rw [chunkWordsLoop_consume m (List.replicate k w) (w :: rest) [] 0 chunks
    (by rw [wordsMass_replicate]; omega)]
  rw [chunkWordsLoop_close m w rest _ _ chunks (by rw [wordsMass_replicate]; omega)]
  rw [List.nil_append, ← List.replicate_succ']

/-- Scenario content A: `"Alpha Beta Gamma. "` repeated 50 times. -/
def scenarioContentA : Text :=
  (List.replicate 50 "Alpha Beta Gamma. ".data).flatten

def wordAbcd : Text := "abcd".data

def wordAbcde : Text := "abcde".data

/-- The words of scenario content B: a normalized 10,000-character document
(1999 four-letter words and one final five-letter word, single spaces). -/
def scenarioWordsB : List Text :=
  List.replicate 1999 wordAbcd ++ [wordAbcde]

/-- Scenario content B: a 10,000-character document. -/
def scenarioContentB : Text :=
  joinSpace scenarioWordsB

theorem scenarioWordsB_good :
    ∀ w ∈ scenarioWordsB, w ≠ [] ∧ ∀ c ∈ w, isPySpace c = false := by
  intro w hw
  rcases List.mem_append.mp hw with h | h
  · have hw4 := List.eq_of_mem_replicate h
    subst hw4; decide
  · simp at h; subst h; decide

theorem scenarioB_split : pySplit scenarioContentB = scenarioWordsB :=
  pySplit_joinSpace scenarioWordsB scenarioWordsB_good

theorem scenarioB_chunks :
    contentChunks 3000 scenarioContentB
      = [joinSpace (List.replicate 600 wordAbcd), joinSpace (List.replicate 600 wordAbcd),
         joinSpace (List.replicate 600 wordAbcd),
         joinSpace (List.replicate 199 wordAbcd ++ [wordAbcde])] := by
  unfold contentChunks
  rw [scenarioB_split]
  have blk : ∀ rest : List Text,
      List.replicate 600 wordAbcd ++ rest = List.replicate 599 wordAbcd ++ (wordAbcd :: rest) := by
    intro rest
    rw [show (600 : Nat) = 599 + 1 from by norm_num, List.replicate_succ']
    simp [List.append_assoc]
  have hW : scenarioWordsB
      = List.replicate 600 wordAbcd ++ (List.replicate 600 wordAbcd ++
        (List.replicate 600 wordAbcd ++ (List.replicate 199 wordAbcd ++ [wordAbcde]))) := by
    unfold scenarioWordsB
    rw [show (1999 : Nat) = 600 + (600 + (600 + 199)) from by norm_num]
    simp [List.replicate_add, List.append_assoc]
  rw [hW, blk, blk, blk]
  rw [chunk_cycle 3000 wordAbcd 599 _ [] (by decide) (by decide)]
  rw [chunk_cycle 3000 wordAbcd 599 _ _ (by decide) (by decide)]
  rw [chunk_cycle 3000 wordAbcd 599 _ _ (by decide) (by decide)]
  rw [show (599 : Nat) + 1 = 600 from by norm_num]
  rw [chunkWordsLoop_consume 3000 (List.replicate 199 wordAbcd) [wordAbcde] [] 0 _
    (by rw [wordsMass_replicate]; decide)]
  rw [show [wordAbcde] = wordAbcde :: [] from rfl]
  rw [chunkWordsLoop, if_neg (by rw [wordsMass_replicate]; decide)]
  rw [chunkWordsLoop_final_ne 3000 _ (by simp) _ _]
  simp [List.append_assoc]

theorem scenarioB_chunk1_length :
    (joinSpace (List.replicate 600 wordAbcd)).length = 2999 := by
  rw [joinSpace_length _ (by simp), wordsMass_replicate]
  decide

/-- C5: the chunker scenarios. `"Alpha Beta Gamma. "` times 50 (900 chars)
yields exactly 1 chunk at the 3000-char ceiling; the 10,000-char document
yields exactly 4 chunks, the first three non-empty and at most 3000 chars,
and (per the spec's round-trip convention) rejoining the chunks with single
spaces reconstructs the source content exactly. -/
theorem claim_C5_chunker_scenarios :
    scenarioContentA.length = 900 ∧
    (contentChunks 3000 scenarioContentA).length = 1 ∧
    scenarioContentB.length = 10000 ∧
    (contentChunks 3000 scenarioContentB).length = 4 ∧
    (∀ c ∈ (contentChunks 3000 scenarioContentB).take 3, c ≠ [] ∧ c.length ≤ 3000) ∧
    joinSpace (contentChunks 3000 scenarioContentB) = scenarioContentB := by
  refine ⟨by decide, by decide, ?_, ?_, ?_, ?_⟩
  · unfold scenarioContentB
    rw [joinSpace_length _ (by simp [scenarioWordsB])]
    unfold scenarioWordsB
    rw [wordsMass_append, wordsMass_replicate]
    decide
  · rw [scenarioB_chunks]
    rfl
  · rw [scenarioB_chunks]
    intro c hc
    simp only [List.take_succ_cons, List.take_zero, List.mem_cons, List.not_mem_nil,
      or_false] at hc
    have hcc : c = joinSpace (List.replicate 600 wordAbcd) := by
      rcases hc with h | h | h <;> exact h
    rw [hcc]
    refine ⟨?_, by rw [scenarioB_chunk1_length]; norm_num⟩
    intro hnil
    have h1 := scenarioB_chunk1_length
    rw [hnil] at h1
    simp at h1
  · rw [contentChunks_join, normalizeWs, scenarioB_split]
    rfl

/-- C6: for every document content and ceiling, chunking and then rejoining
the chunk texts with single spaces reconstructs the whitespace-normalized
content exactly. -/
theorem claim_C6_chunk_roundtrip (maxSize : Nat) (content : Text) :
    joinSpace (contentChunks maxSize content) = normalizeWs content :=
  contentChunks_join maxSize content

/-! ## `_calculate_similarity` (postgres_manager.py, lines 495-508)

The Python computes `np.dot(a, b) / (np.linalg.norm(a) * np.linalg.norm(b))`
inside a bare `try/except` returning `0.0`. Numpy semantics modelled here:
`np.dot` on 1-D arrays of different lengths raises `ValueError`, which the
`except` catches (result `0.0`); dividing a float by a zero norm does NOT
raise — numpy emits a `RuntimeWarning` and the division yields `nan` — so the
`except` branch is not taken and the `nan` float is returned to the caller.
Since the norms are irrational in general, a finite result is recorded by its
rational components `(dot, ‖a‖², ‖b‖²)`, denoting `dot / (√‖a‖²·√‖b‖²)`. -/

/-- Sum of coordinatewise products (`np.dot`). -/
def dotQ (a b : List ℚ) : ℚ :=
  (List.zipWith (· * ·) a b).sum

/-- Squared Euclidean norm (`np.linalg.norm(a) ** 2`). -/
def normSq (a : List ℚ) : ℚ :=
  (a.map (fun x => x * x)).sum

/-- The float value returned by `_calculate_similarity`: a finite cosine
value (given by its rational components), or `nan`. -/
inductive SimOutcome where
  | val (dot normSqA normSqB : ℚ)
  | nan
  deriving DecidableEq

/-- `PostgreSQLDocumentManager._calculate_similarity`. `.val 0 1 1` denotes
the literal `0.0` returned by the `except` branch. -/
def calculate_similarity (vec1 vec2 : List ℚ) : SimOutcome :=
  if vec1.length ≠ vec2.length then SimOutcome.val 0 1 1
  else if normSq vec1 = 0 ∨ normSq vec2 = 0 then SimOutcome.nan
  else SimOutcome.val (dotQ vec1 vec2) (normSq vec1) (normSq vec2)

/-- C10 counterexample: on a zero-norm first vector the similarity helper
returns the float `nan` produced by the zero division (numpy warns instead of
raising, so the `except ... return 0.0` branch never runs) — not `0.0` as the
claim states. -/
theorem counterexample_C10_zero_norm_nan :
    calculate_similarity [(0 : ℚ), 0] [1, 2] = SimOutcome.nan := by
  unfold calculate_similarity
  rw [if_neg (by decide), if_pos (Or.inl (by norm_num [normSq]))]

/-- C10 (amended): the similarity helper is total — every call returns a
float value. Inputs that make the numpy computation raise (mismatched
dimensions) are caught and return `0.0`; a zero-norm vector instead produces
`nan` from the float division; well-formed non-degenerate inputs return the
finite cosine value. -/
theorem claim_C10_similarity_totality (v1 v2 : List ℚ) :
    (v1.length ≠ v2.length → calculate_similarity v1 v2 = SimOutcome.val 0 1 1) ∧
    (v1.length = v2.length → normSq v1 = 0 ∨ normSq v2 = 0 →
      calculate_similarity v1 v2 = SimOutcome.nan) ∧
    (v1.length = v2.length → normSq v1 ≠ 0 → normSq v2 ≠ 0 →
      calculate_similarity v1 v2
        = SimOutcome.val (dotQ v1 v2) (normSq v1) (normSq v2)) := by
  unfold calculate_similarity
  refine ⟨fun h => ?_, fun h hz => ?_, fun h h1 h2 => ?_⟩
  · rw [if_pos h]
  · rw [if_neg (by simp [h]), if_pos hz]
  · rw [if_neg (by simp [h]), if_neg (by simp [h1, h2])]

/-- Witness for C10: concrete applications of the totality theorem. -/
theorem claim_C10_similarity_totality_witness :
    calculate_similarity [(1 : ℚ)] [1, 2] = SimOutcome.val 0 1 1 ∧
    calculate_similarity [(0 : ℚ), 0, 0] [1, 2, 3] = SimOutcome.nan := by
  constructor
  · exact (claim_C10_similarity_totality [(1 : ℚ)] [1, 2]).1 (by decide)
  · exact (claim_C10_similarity_totality [(0 : ℚ), 0, 0] [1, 2, 3]).2.1 (by norm_num)
      (Or.inl (by norm_num [normSq]))

/-! ## The chunk store (postgres_manager.py)

`EnhancedDocument`, `DocumentRecord`, `DocumentChunk`, `put_document` and
`_create_document_chunks` (lines 97-296). Fields not consulted by any claim
(JSON metadata, tables/images, timestamps) are omitted. The embedding client
`get_text_embedding` is an oracle `Text → Option (List ℚ)`; `none` models a
raised exception, which the code catches and records as a NULL embedding. -/

structure EnhancedDocument where
  id : Text
  document_name : Text
  content : Text
  summary : Text
  q_and_a : Text
  mindmap : Text
  bullet_points : Text
  is_processed : Bool
  deriving DecidableEq

/-- A row of the `documents_enhanced` table. -/
structure DocumentRow where
  id : Text
  document_name : Text
  content : Text
  summary : Text
  content_embedding : Option (List ℚ)
  summary_embedding : Option (List ℚ)
  is_processed : Bool
  deriving DecidableEq

/-- A row of the `document_chunks` table. -/
structure ChunkRow where
  document_id : Text
  chunk_text : Text
  chunk_index : Nat
  embedding : Option (List ℚ)
  deriving DecidableEq

/-- The relational store: the two tables the claims are about. -/
structure DbState where
  documents : List DocumentRow
  chunks : List ChunkRow
  deriving DecidableEq

/-- `PostgreSQLDocumentManager._create_document_chunks` (lines 259-296), at
the manager defaults `chunk_size = 512`, `chunk_overlap = 50`: windows of
`512 // 4 = 128` words advancing by `128 - 50 // 4 = 116`; without an
embedding model the method returns without creating chunks. -/
def create_document_chunks (hasEmbed : Bool) (embedFn : Text → Option (List ℚ))
    (documentId : Text) (content : Text) : List ChunkRow :=
  if !hasEmbed then []
  else
    let words := pySplit content
    let starts := (List.range ((words.length + 115) / 116)).map (· * 116)
    starts.foldl (fun acc i =>
      let chunkText := joinSpace ((words.drop i).take 128)
      if (pyStrip chunkText).isEmpty then acc
      else acc ++ [{ document_id := documentId, chunk_text := chunkText,
                     chunk_index := acc.length, embedding := embedFn chunkText }]) []

/-- `PostgreSQLDocumentManager.put_document` (lines 204-257). Inserting a
`DocumentRecord` whose id already exists makes `session.commit()` raise the
primary-key `IntegrityError`; the handler rolls the session back and
re-raises, so the store is unchanged and chunk creation is never reached.
Note the code stores `content_embedding = None` on purpose (line 216).
Returns the call result together with the post-state. -/
def put_document (hasEmbed : Bool) (embedFn : Text → Option (List ℚ))
    (st : DbState) (doc : EnhancedDocument) : Except Unit Text × DbState :=
  let summaryEmbedding := if hasEmbed then embedFn doc.summary else none
  if st.documents.any (fun r => r.id == doc.id) then
    (Except.error (), st)
  else
    let row : DocumentRow :=
      { id := doc.id, document_name := doc.document_name, content := doc.content,
        summary := doc.summary, content_embedding := none,
        summary_embedding := summaryEmbedding, is_processed := doc.is_processed }
    let newChunks := create_document_chunks hasEmbed embedFn doc.id doc.content
    (Except.ok doc.id, { documents := st.documents ++ [row], chunks := st.chunks ++ newChunks })

/-- First processing pass of the C8 scenario document. -/
def c8doc1 : EnhancedDocument :=
  { id := "doc-1".data, document_name := "report".data,
    content := "The quick brown fox jumps over the lazy dog".data,
    summary := "A fox jumps over a dog".data, q_and_a := [], mindmap := [],
    bullet_points := [], is_processed := true }

/-- The same document id re-processed with new content. -/
def c8doc2 : EnhancedDocument :=
  { c8doc1 with content := "Entirely new content for the second processing pass".data }

/-- A deterministic embedding oracle for the C8 scenario. -/
def c8embed : Text → Option (List ℚ) := fun _ => some [1, 0]

/-- Store state after the first pass. -/
def c8state1 : DbState :=
  (put_document true c8embed ⟨[], []⟩ c8doc1).2

/-- C8 counterexample: storing the same document id again does not replace
its chunk set — the put fails with the duplicate-key error, the store is
unchanged, and the chunk created by the first pass is still the one
associated with the id. -/
theorem counterexample_C8_chunks_not_replaced :
    (put_document true c8embed c8state1 c8doc2).1 = Except.error () ∧
    (put_document true c8embed c8state1 c8doc2).2 = c8state1 ∧
    (c8state1.chunks.countP (fun ch => ch.document_id == c8doc1.id)) = 1 ∧
    (c8state1.chunks.map (fun ch => ch.chunk_text))
      = [normalizeWs c8doc1.content] := by
  refine ⟨rfl, rfl, rfl, rfl⟩

/-- C8 (amended): re-storing an existing document id fails with the
primary-key error and leaves the store unchanged (the earlier chunks
remain); the store never deletes chunk rows — every previously stored chunk
survives any put operation. -/
theorem claim_C8_put_semantics (hasEmbed : Bool) (embedFn : Text → Option (List ℚ))
    (st : DbState) (doc : EnhancedDocument) :
    (st.documents.any (fun r => r.id == doc.id) = true →
      put_document hasEmbed embedFn st doc = (Except.error (), st)) ∧
    (∀ ch ∈ st.chunks, ch ∈ (put_document hasEmbed embedFn st doc).2.chunks) := by
  constructor
  · intro h
    unfold put_document
    rw [if_pos h]
  · intro ch hch
    unfold put_document
    by_cases h : st.documents.any (fun r => r.id == doc.id)
    · rw [if_pos h]
      exact hch
    · rw [if_neg h]
      exact List.mem_append_left _ hch

/-- Witness for C8: the amended semantics applied to the concrete scenario. -/
theorem claim_C8_put_semantics_witness :
    put_document true c8embed c8state1 c8doc2 = (Except.error (), c8state1) :=
  (claim_C8_put_semantics true c8embed c8state1 c8doc2).1 (by rfl)

/-! ## The retrieval engine

`EnhancedQueryEngine.query_index` (enhanced_querying.py, lines 97-178) with
its helpers `_is_relevant_to_question` (180-191) and
`_extract_relevant_snippet` (193-224), over
`PostgreSQLDocumentManager.search_documents` (postgres_manager.py, 442-493)
and `_basic_text_search` (510-540). External collaborators are oracles in the
state: the query-embedding call, the float cosine value (`none` = `nan`), and
`query_documents` (the vector tier's LlamaIndex citation engine). The bare
`except` handlers of `query_index` return `None`, so the embedding is a total
`Option`-valued function. -/

/-- `startswith` on character lists. -/
def startsWithText : Text → Text → Bool
  | [], _ => true
  | _ :: _, [] => false
  | a :: as, b :: bs => a == b && startsWithText as bs

/-- Python `needle in hay` (used for SQL `ILIKE '%query%'` after lowering
both sides; `%`/`_` wildcards inside the query itself are not modelled). -/
def textContains (needle : Text) : Text → Bool
  | [] => startsWithText needle []
  | c :: rest => startsWithText needle (c :: rest) || textContains needle rest

/-- `set(t.lower().split())`: the distinct lowered words of a text. -/
def wordSet (t : Text) : List Text :=
  (pySplit (pyLower t)).dedup

/-- `len(question_words.intersection(text_words))`. -/
def overlapCount (question text : Text) : Nat :=
  ((wordSet question).filter (fun w => w ∈ wordSet text)).length

/-- `EnhancedQueryEngine._is_relevant_to_question`:
`overlap >= max(1, len(question_words) * 0.15)`, stated integrally
(`0.15` as `3/20`; the double `0.15` differs from `3/20` by under `1e-17`,
which cannot move an integer-vs-threshold comparison at these magnitudes). -/
def is_relevant_to_question (question text : Text) : Bool :=
  let n := (wordSet question).length
  let overlap := overlapCount question text
  1 ≤ overlap && 3 * n ≤ 20 * overlap

/-- `content.replace('\n', ' ')`. -/
def replaceNl (t : Text) : Text :=
  t.map (fun c => if c = '\n' then ' ' else c)

/-- Python `s.split('. ')` (keeps empty pieces, leftmost non-overlapping). -/
def splitDotSpaceAux : Text → Text → List Text
  | [], cur => [cur.reverse]
  | '.' :: ' ' :: rest, cur => cur.reverse :: splitDotSpaceAux rest []
  | c :: rest, cur => splitDotSpaceAux rest (c :: cur)

def splitDotSpace (t : Text) : List Text :=
  splitDotSpaceAux t []

/-- Stable descending insertion by a rational key: a later element is placed
after existing equal-key elements (models Python's stable
`sort(key=..., reverse=True)`). -/
def insertByDesc (key : α → ℚ) (x : α) : List α → List α
  | [] => [x]
  | y :: ys => if key y < key x then x :: y :: ys else y :: insertByDesc key x ys

def sortByDesc (key : α → ℚ) (l : List α) : List α :=
  l.foldl (fun acc x => insertByDesc key x acc) []

/-- Sentence scoring loop of `_extract_relevant_snippet`: sentences with a
positive overlap with the long question words, paired with their stripped
text. -/
def snippetScored (qws : List Text) : List Text → List (Nat × Text)
  | [] => []
  | s :: rest =>
    let sw := ((pySplit s).map pyLower).dedup
    let overlap := (qws.filter (fun w => w ∈ sw)).length
    if 0 < overlap then (overlap, pyStrip s) :: snippetScored qws rest
    else snippetScored qws rest

/-- Greedy snippet accumulation over the top sentences (`break` on the first
sentence that would reach the length cap). -/
def snippetTake : List (Nat × Text) → Text → Text
  | [], acc => acc
  | (_, s) :: rest, acc =>
    if acc.length + s.length < 800 then snippetTake rest (acc ++ s ++ ". ".data)
    else acc

/-- `content[:800] + ("..." if len(content) > 800 else "")`. -/
def snippetFallback (content : Text) : Text :=
  content.take 800 ++ (if 800 < content.length then "...".data else [])

/-- `EnhancedQueryEngine._extract_relevant_snippet` at the default
`max_length = 800`. -/
def extract_relevant_snippet (question content : Text) : Text :=
  let qws := (((pySplit question).filter (fun w => 3 < w.length)).map pyLower).dedup
  let sentences := splitDotSpace (replaceNl content)
  let scored := snippetScored qws sentences
  if scored.isEmpty then snippetFallback content
  else
    let sorted := sortByDesc (fun p => (p.1 : ℚ)) scored
    let snippet := pyStrip (snippetTake (sorted.take 3) [])
    if snippet.isEmpty then snippetFallback content else snippet

/-- The retrieval engine's state: stored rows plus the external oracles. -/
structure QueryState where
  docs : List DocumentRow
  hasEmbed : Bool
  queryEmbed : Text → List ℚ
  sim : List ℚ → List ℚ → Option ℚ
  vectorIndex : Bool
  vectorAnswer : Text → Option Text

/-- `PostgreSQLDocumentManager._basic_text_search`: case-insensitive
substring filter (`content ILIKE '%query%'`), first `limit` rows, mock
similarity `1.0`. -/
def basic_text_search (st : QueryState) (query : Text) (limit : Nat) :
    List (DocumentRow × ℚ) :=
  ((st.docs.filter (fun d => textContains (pyLower query) (pyLower d.content))).take
    limit).map (fun d => (d, 1))

/-- The per-record similarity filter of `search_documents`: records need a
non-NULL, non-empty `content_embedding` and a similarity at or above the
threshold (a `nan` similarity fails the `>=`). -/
def simFilter (st : QueryState) (qe : List ℚ) (threshold : ℚ) :
    List DocumentRow → List (DocumentRow × ℚ)
  | [] => []
  | d :: rest =>
    match d.content_embedding with
    | none => simFilter st qe threshold rest
    | some emb =>
      if emb.isEmpty then simFilter st qe threshold rest
      else
        match st.sim qe emb with
        | none => simFilter st qe threshold rest
        | some v =>
          if threshold ≤ v then (d, v) :: simFilter st qe threshold rest
          else simFilter st qe threshold rest

/-- `PostgreSQLDocumentManager.search_documents`: without an embedding model
falls back to the basic text search; otherwise filters the first
`limit * 2` processed records by embedding similarity, sorts by similarity
descending (stably) and keeps `limit`. -/
def search_documents (st : QueryState) (query : Text) (limit : Nat)
    (threshold : ℚ) : List (DocumentRow × ℚ) :=
  if !st.hasEmbed then basic_text_search st query limit
  else
    let qe := st.queryEmbed query
    let cands := (st.docs.filter (fun d => d.is_processed)).take (limit * 2)
    (sortByDesc (fun p => p.2) (simFilter st qe threshold cands)).take limit

/-- `f"{x:.2f}"` for the non-negative similarity values arising here (the
half-to-even tie-break of Python's float formatting cannot fire on the only
value used, `1.0`). -/
def fmtTwoDec (x : ℚ) : Text :=
  let n : Nat := (⌊x * 100 + 1 / 2⌋).toNat
  (Nat.repr (n / 100)).data ++ ".".data
    ++ (if n % 100 < 10 then "0".data else []) ++ (Nat.repr (n % 100)).data

/-- The source label `f"{doc.document_name} (similarity: {similarity:.2f})"`. -/
def sourceLabel (d : DocumentRow) (sim : ℚ) : Text :=
  d.document_name ++ " (similarity: ".data ++ fmtTwoDec sim ++ ")".data

/-- The summary-source label with the `" - Summary"` marker. -/
def sourceLabelSummary (d : DocumentRow) (sim : ℚ) : Text :=
  d.document_name ++ " - Summary (similarity: ".data ++ fmtTwoDec sim ++ ")".data

/-- One iteration of the result loop of `query_index` (lines 140-155): a
document with substantial content contributes a relevant snippet, else its
summary if that is relevant; a document without substantial content
contributes its summary when that is substantial. -/
def docContribution (question : Text) (d : DocumentRow) (sim : ℚ) :
    Option (Text × Text) :=
  if ¬ d.content.isEmpty ∧ 50 < (pyStrip d.content).length then
    if is_relevant_to_question question d.content then
      some (extract_relevant_snippet question d.content, sourceLabel d sim)
    else if is_relevant_to_question question d.summary then
      some (d.summary, sourceLabelSummary d sim)
    else none
  else if ¬ d.summary.isEmpty ∧ 20 < (pyStrip d.summary).length then
    some (d.summary, sourceLabelSummary d sim)
  else none

def collectParts (question : Text) : List (DocumentRow × ℚ) → List (Text × Text)
  | [] => []
  | (d, s) :: rest =>
    match docContribution question d s with
    | some p => p :: collectParts question rest
    | none => collectParts question rest

/-- `sep.join(ts)`. -/
def joinWith (sep : Text) : List Text → Text
  | [] => []
  | [t] => t
  | t :: ts => t ++ sep ++ joinWith sep ts

/-- The formatted fallback answer (lines 162-169): top three parts and
sources. -/
def formatAnswer (parts sources : List Text) : Text :=
  "## Answer\n\n".data ++ joinWith "\n\n".data (parts.take 3)
    ++ "\n\n## Sources\n\n- ".data ++ joinWith "\n- ".data (sources.take 3)

/-- `EnhancedQueryEngine.query_index`: vector tier first when an index
exists (any truthy response is returned as-is), then the
`search_documents`-based fallback; `none` whenever nothing qualifies. -/
def query_index (st : QueryState) (question : Text) : Option Text :=
  let tier23 : Option Text :=
    let results := search_documents st question 5 (1 / 2)
    if results.isEmpty then none
    else
      let contribs := collectParts question results
      if contribs.isEmpty then none
      else some (formatAnswer (contribs.map Prod.fst) (contribs.map Prod.snd))
  if st.vectorIndex then
    match st.vectorAnswer question with
    | some r => if r.isEmpty then tier23 else some r
    | none => tier23
  else tier23

theorem simFilter_nil_of_no_embeddings (st : QueryState) (qe : List ℚ)
    (threshold : ℚ) (l : List DocumentRow)
    (h : ∀ d ∈ l, d.content_embedding = none) :
    simFilter st qe threshold l = [] := by
  induction l with
  | nil => rfl
  | cons d rest ih =>
    have hd := h d (by simp)
    simp [simFilter, hd, ih (fun x hx => h x (by simp [hx]))]

/-- C9: a question asked with the store empty (and the vector tier, if an
index exists at all, yielding nothing) returns `none` — the embedding is a
total function, every error path of the code returning `None` instead of
propagating an exception. -/
theorem claim_C9_empty_store_returns_none (st : QueryState) (question : Text)
    (hdocs : st.docs = [])
    (hvec : st.vectorIndex = true →
      st.vectorAnswer question = none ∨ st.vectorAnswer question = some []) :
    query_index st question = none := by
  have hsearch : search_documents st question 5 (1 / 2) = [] := by
    unfold search_documents basic_text_search
    rw [hdocs]
    cases st.hasEmbed <;> simp [simFilter, sortByDesc]
  unfold query_index
  rw [hsearch]
  cases hv : st.vectorIndex
  · simp
  · rcases hvec hv with h | h <;> simp [h]

/-- The C9 witness state: an empty store, no embedding model, no vector
index. -/
def c9state : QueryState :=
  { docs := [], hasEmbed := false, queryEmbed := fun _ => [],
    sim := fun _ _ => none, vectorIndex := false, vectorAnswer := fun _ => none }

/-- Witness for C9: the concrete empty-store question of the spec scenario. -/
theorem claim_C9_empty_store_returns_none_witness :
    query_index c9state "What is this about?".data = none :=
  claim_C9_empty_store_returns_none c9state "What is this about?".data rfl
    (fun h => by simp [c9state] at h)

/-- The single stored document of the C2 counterexample. -/
def c2doc : DocumentRow :=
  { id := "doc-1".data, document_name := "alpha-doc".data,
    content := "alpha beta gamma delta epsilon arrangement of stored words".data,
    summary := "summary of the alpha beta document contents".data,
    content_embedding := none, summary_embedding := none, is_processed := true }

/-- C2 counterexample state: no vector index, no embedding model, one stored
document. -/
def c2state : QueryState :=
  { docs := [c2doc], hasEmbed := false, queryEmbed := fun _ => [],
    sim := fun _ _ => none, vectorIndex := false, vectorAnswer := fun _ => none }

/-- A query sharing exactly one of its five keywords (20%) with the stored
content, and not occurring in it as a substring. -/
def c2question : Text :=
  "alpha evidence zeta theta kappa".data

/-- C2 counterexample: with no vector index, a query with 20% keyword
overlap with the stored document returns no answer at all — the lexical
tier retrieves by whole-query substring match, not keyword overlap. -/
theorem counterexample_C2_overlap_without_substring :
    c2state.vectorIndex = false ∧
    c2state.docs = [c2doc] ∧
    (wordSet c2question).length ≤ 5 * overlapCount c2question c2doc.content ∧
    query_index c2state c2question = none := by
  refine ⟨rfl, rfl, by decide, rfl⟩

/-- C2 (amended): the tiers as implemented. (1) With a vector index, any
non-empty vector-tier answer is returned, short-circuiting the rest. (2)
With no vector index and no embedding model, documents are retrieved only by
case-insensitive whole-query substring match: if no stored content contains
the query, the result is `none` regardless of keyword overlap. (2') With an
embedding model but no vector index, documents stored by `put_document`
(which leaves `content_embedding` NULL) are never retrieved either. (3) A
stored document that does contain the query as a substring, with substantial
content that clears the 15% keyword-overlap relevance check, produces the
lexical answer built from its content snippet. -/
theorem claim_C2_tier_ordering :
    (∀ (st : QueryState) (q r : Text), st.vectorIndex = true →
      st.vectorAnswer q = some r → r ≠ [] → query_index st q = some r) ∧
    (∀ (st : QueryState) (q : Text), st.vectorIndex = false → st.hasEmbed = false →
      (∀ d ∈ st.docs, textContains (pyLower q) (pyLower d.content) = false) →
      query_index st q = none) ∧
    (∀ (st : QueryState) (q : Text), st.vectorIndex = false → st.hasEmbed = true →
      (∀ d ∈ st.docs, d.content_embedding = none) →
      query_index st q = none) ∧
    (∀ (st : QueryState) (d : DocumentRow) (q : Text), st.vectorIndex = false →
      st.hasEmbed = false → st.docs = [d] →
      textContains (pyLower q) (pyLower d.content) = true →
      d.content ≠ [] → 50 < (pyStrip d.content).length →
      is_relevant_to_question q d.content = true →
      query_index st q
        = some (formatAnswer [extract_relevant_snippet q d.content]
            [sourceLabel d 1])) := by
  refine ⟨?_, ?_, ?_, ?_⟩
  · intro st q r hvi hva hr
    unfold query_index
    rw [hvi, hva]
    rcases r with _ | ⟨c, cs⟩
    · exact absurd rfl hr
    · simp
  · intro st q hvi hemb hsub
    have hsearch : search_documents st q 5 (1 / 2) = [] := by
      unfold search_documents basic_text_search
      rw [hemb]
      have : st.docs.filter (fun d => textContains (pyLower q) (pyLower d.content)) = [] := by
        rw [List.filter_eq_nil_iff]
        intro d hd
        simp [hsub d hd]
      simp [this]
    unfold query_index
    rw [hsearch, hvi]
    simp
  · intro st q hvi hemb hnone
    have hsearch : search_documents st q 5 (1 / 2) = [] := by
      unfold search_documents
      rw [hemb]
      simp only [Bool.not_true, Bool.false_eq_true, if_false]
      rw [simFilter_nil_of_no_embeddings st _ _ _
        (fun d hd => hnone d (List.mem_of_mem_filter (List.mem_of_mem_take hd)))]
      simp [sortByDesc]
    unfold query_index
    rw [hsearch, hvi]
    simp
  · intro st d q hvi hemb hdocs hsub hcne hclen hrel
    have hsearch : search_documents st q 5 (1 / 2) = [(d, 1)] := by
      unfold search_documents basic_text_search
      rw [hemb, hdocs]
      simp [hsub]
    have hcontrib : docContribution q d 1
        = some (extract_relevant_snippet q d.content, sourceLabel d 1) := by
      unfold docContribution
      rw [if_pos ⟨by simpa using hcne, hclen⟩, if_pos (by simp [hrel])]
    unfold query_index
    rw [hsearch, hvi]
    simp [collectParts, hcontrib]

/-- The stored document of the C2 witness: the query occurs verbatim in its
content and clears the relevance check. -/
def c2witnessDoc : DocumentRow :=
  { id := "doc-2".data, document_name := "greek-doc".data,
    content := "alpha beta gamma delta epsilon zeta eta theta iota kappa lambda mu".data,
    summary := "letters of the greek alphabet in order".data,
    content_embedding := none, summary_embedding := none, is_processed := true }

def c2witnessState : QueryState :=
  { docs := [c2witnessDoc], hasEmbed := false, queryEmbed := fun _ => [],
    sim := fun _ _ => none, vectorIndex := false, vectorAnswer := fun _ => none }

def c2vectorState : QueryState :=
  { docs := [], hasEmbed := false, queryEmbed := fun _ => [],
    sim := fun _ _ => none, vectorIndex := true,
    vectorAnswer := fun _ => some "the vector tier answer".data }

/-- Witness for C2: the vector short-circuit and the substring-tier answer at
concrete states. -/
theorem claim_C2_tier_ordering_witness :
    query_index c2vectorState "any question".data = some "the vector tier answer".data ∧
    query_index c2witnessState "alpha beta".data
      = some (formatAnswer
          [extract_relevant_snippet "alpha beta".data c2witnessDoc.content]
          [sourceLabel c2witnessDoc 1]) := by
  constructor
  · exact claim_C2_tier_ordering.1 c2vectorState "any question".data
      "the vector tier answer".data rfl rfl (by decide)
  · exact claim_C2_tier_ordering.2.2.2 c2witnessState c2witnessDoc "alpha beta".data
      rfl rfl rfl (by decide) (by decide) (by decide) (by decide)

/-! ## The enrichment service

`ContentEnhancer` (content_enhancer.py). The completion client is modelled at
its call sites: `enhance_document` awaits exactly four `llm.achat` calls (one
per sub-task), each caught individually, so the client's behavior is a record
of the four outcomes; `none` models a raised `CompletionError`. Floats
(quality score) are exact rationals. The whole-stage `asyncio.TimeoutError`
of the shared `wait_for` is the `timedOut` flag. -/

/-- The apostrophe character (used by the f-string templates). -/
def aposChar : Char := Char.ofNat 39

/-- Replace every maximal run of characters satisfying `p` by a single
space (one `re.sub` pass); `inRun` records an already-replaced run. -/
def collapseRuns (p : Char → Bool) : Text → Bool → Text
  | [], _ => []
  | c :: rest, inRun =>
    if p c then
      if inRun then collapseRuns p rest true
      else ' ' :: collapseRuns p rest true
    else c :: collapseRuns p rest false

/-- `re.sub(r'\n{3,}', '\n\n', ...)`: runs of three or more newlines become
exactly two; `k` counts pending newlines. -/
def collapseNlAux : Text → Nat → Text
  | [], k => List.replicate (min k 2) '\n'
  | '\n' :: rest, k => collapseNlAux rest (k + 1)
  | c :: rest, k => List.replicate (min k 2) '\n' ++ c :: collapseNlAux rest 0

def collapseNewlines (t : Text) : Text :=
  collapseNlAux t 0

/-- Index of the last `'.'` (`str.rfind`), `none` for `-1`. -/
def lastDotIdx : Text → Option Nat
  | [] => none
  | c :: rest =>
    match lastDotIdx rest with
    | some i => some (i + 1)
    | none => if c = '.' then some 0 else none

/-- `ContentEnhancer._prepare_content` (lines 148-165) at the default
`chunk_size = 4000`: collapse newline runs, normalize space/tab runs, strip,
and truncate to 4000 characters preferring the last sentence boundary when
it lies past 80% of the ceiling (`4000 * 0.8 = 3200.0` exactly). -/
def prepare_content (raw : Text) : Text :=
  let content := pyStrip (collapseRuns (fun c => c == ' ' || c == '\t')
    (collapseNewlines raw) false)
  if 4000 < content.length then
    let truncated := content.take 4000
    match lastDotIdx truncated with
    | some i => if 3200 < i then truncated.take (i + 1) else truncated
    | none => truncated
  else content

/-- The `^(Summary:|Key Points:|Topics:)\s*` removal of
`_clean_llm_output`. -/
def stripLeadingLabel (t : Text) : Text :=
  if startsWithText "Summary:".data t then (t.drop 8).dropWhile isPySpace
  else if startsWithText "Key Points:".data t then (t.drop 11).dropWhile isPySpace
  else if startsWithText "Topics:".data t then (t.drop 7).dropWhile isPySpace
  else t

/-- `ContentEnhancer._clean_llm_output` (lines 392-398). -/
def clean_llm_output (t : Text) : Text :=
  pyStrip (collapseRuns isPySpace
    (collapseRuns (fun c => c == '\n') (stripLeadingLabel t) false) false)

/-- `text.split('\n')` (keeps empty lines). -/
def splitNlAux : Text → Text → List Text
  | [], cur => [cur.reverse]
  | '\n' :: rest, cur => cur.reverse :: splitNlAux rest []
  | c :: rest, cur => splitNlAux rest (c :: cur)

def splitNl (t : Text) : List Text :=
  splitNlAux t []

/-- One line of `_parse_numbered_list`: `^\d+[\.\)]\s*(.*)` on the stripped
line, keeping the non-empty stripped capture. -/
def parseNumberedItem (line : Text) : Option Text :=
  match pyStrip line with
  | [] => none
  | c :: rest =>
    if c.isDigit then
      match rest.dropWhile Char.isDigit with
      | '.' :: r =>
        let point := pyStrip (r.dropWhile isPySpace)
        if point.isEmpty then none else some point
      | ')' :: r =>
        let point := pyStrip (r.dropWhile isPySpace)
        if point.isEmpty then none else some point
      | _ => none
    else none

/-- `ContentEnhancer._parse_numbered_list` (lines 400-413). -/
def parse_numbered_list (text : Text) : List Text :=
  (splitNl (pyStrip text)).filterMap parseNumberedItem

/-- One line of `_parse_topic_list`: drop one leading `-`/`•`/`*` marker with
its whitespace, keep non-empty topics of at most three words. -/
def parseTopicItem (line : Text) : Option Text :=
  let l := pyStrip line
  let topic :=
    match l with
    | c :: rest => if c == '-' || c == '•' || c == '*' then rest.dropWhile isPySpace else l
    | [] => l
  if ¬ topic.isEmpty ∧ (pySplit topic).length ≤ 3 then some topic else none

/-- `ContentEnhancer._parse_topic_list` (lines 435-446). -/
def parse_topic_list (text : Text) : List Text :=
  (splitNl (pyStrip text)).filterMap parseTopicItem

/-- After a `Q`/`A` letter: one or more digits then `:`, returning the rest. -/
def digitsColon : Text → Option Text
  | [] => none
  | c :: rest =>
    if c.isDigit then
      match rest.dropWhile Char.isDigit with
      | ':' :: r => some r
      | _ => none
    else none

/-- A `Q\d+:` marker (case-insensitive) at the head of the text. -/
def qMarkerRest (s : Text) : Option Text :=
  match s with
  | [] => none
  | c :: rest => if c == 'Q' || c == 'q' then digitsColon rest else none

/-- An `A\d+:` marker (case-insensitive) at the head of the text. -/
def aMarkerRest (s : Text) : Option Text :=
  match s with
  | [] => none
  | c :: rest => if c == 'A' || c == 'a' then digitsColon rest else none

/-- Scan to the first position where `marker` matches; return the text
before it and the rest after the marker. -/
def scanToMarker (marker : Text → Option Text) : Text → Option (Text × Text)
  | [] => none
  | c :: rest =>
    match marker (c :: rest) with
    | some after => some ([], after)
    | none =>
      match scanToMarker marker rest with
      | some (pre, after) => some (c :: pre, after)
      | none => none

/-- Scan to the first position where a `Q\d+:` marker starts; return the
text before it and (if found) the rest starting at the marker. -/
def scanToQStart : Text → Text × Option Text
  | [] => ([], none)
  | c :: rest =>
    if (qMarkerRest (c :: rest)).isSome then ([], some (c :: rest))
    else
      let (pre, r) := scanToQStart rest
      (c :: pre, r)

/-- The successive raw matches of
`re.findall(r'Q\d+:\s*(.*?)\s*A\d+:\s*(.*?)(?=Q\d+:|$)', text, DOTALL | IGNORECASE)`:
each match runs from a `Q\d+:` marker, its question group up to the first
following `A\d+:` marker, its answer group up to the next `Q\d+:` marker or
the end (the `\s*` trimming is subsumed by the subsequent `.strip()` calls).
The fuel is the text length: every iteration consumes at least the two
markers. -/
def qaScan : Nat → Text → List (Text × Text)
  | 0, _ => []
  | fuel + 1, s =>
    match scanToMarker qMarkerRest s with
    | none => []
    | some (_, afterQ) =>
      match scanToMarker aMarkerRest afterQ with
      | none => []
      | some (qtext, afterA) =>
        let (atext, restOpt) := scanToQStart afterA
        (qtext, atext) ::
          (match restOpt with
           | some rest => qaScan fuel rest
           | none => [])

/-- `ContentEnhancer._parse_qa_pairs` (lines 415-433): strip both groups,
keep non-empty pairs, append a `?` to questions lacking one. -/
def parse_qa_pairs (text : Text) : List Text × List Text :=
  (qaScan text.length text).foldr (fun p acc =>
    let q := pyStrip p.1
    let a := pyStrip p.2
    if q.isEmpty ∨ a.isEmpty then acc
    else
      let q2 := if q.getLast? = some '?' then q else q ++ ['?']
      (q2 :: acc.1, a :: acc.2)) ([], [])

/-- `ContentEnhancer._create_fallback_summary` (lines 508-513). -/
def create_fallback_summary (content title : Text) : Text :=
  "This document titled ".data ++ [aposChar] ++ title ++ [aposChar]
    ++ " contains important information and insights. ".data
    ++ joinWith ". ".data ((splitDotSpace content).take 3)
    ++ ". The document has been processed and is ready for analysis and exploration.".data

/-- `ContentEnhancer._create_fallback_key_points` (lines 515-523). -/
def create_fallback_key_points (content : Text) : List Text :=
  ["Document successfully processed and analyzed".data,
   "Contains ".data ++ (Nat.repr content.length).data ++ " characters of content".data,
   "Ready for detailed exploration and analysis".data,
   "Structured content available for querying".data,
   "Comprehensive information extracted and organized".data]

/-- `ContentEnhancer._create_fallback_qa` (lines 525-539). -/
def create_fallback_qa (content : Text) : List Text × List Text :=
  (["What type of document is this?".data,
    "How much content does it contain?".data,
    "Is the document ready for analysis?".data],
   ["This is a processed document that has been analyzed and structured for exploration.".data,
    "The document contains ".data ++ (Nat.repr content.length).data
      ++ " characters of detailed content and information.".data,
    "Yes, the document has been successfully processed and is ready for detailed analysis and querying.".data])

/-- `ContentEnhancer._create_fallback_topics` (lines 541-543). -/
def create_fallback_topics (_content : Text) : List Text :=
  ["Document Content".data, "Main Information".data, "Key Details".data,
   "Analysis Results".data]

/-- `EventValidator.validate_qa_quality` (workflow_events.py, lines 276-293):
equal lengths; each stripped question non-empty, at least 10 characters and
ending in `?`; each stripped answer non-empty and at least 20 characters. -/
def validate_qa_quality (questions answers : List Text) : Bool :=
  questions.length == answers.length &&
  (List.zip questions answers).all (fun p =>
    let q := pyStrip p.1
    let a := pyStrip p.2
    !q.isEmpty && !a.isEmpty && decide (10 ≤ q.length) && decide (20 ≤ a.length)
      && q.getLast? == some '?')

/-- `ContentEnhancer._validate_summary` (lines 338-348); the
exception-instance branch cannot arise here because each sub-task catches
its own errors and returns fallback content. -/
def validate_summary (summary : Text) (content : Text) : Text :=
  if (pyStrip summary).length < 50 then create_fallback_summary content "Document".data
  else pyStrip summary

/-- `ContentEnhancer._validate_key_points` (lines 350-360). -/
def validate_key_points (key_points : List Text) : List Text :=
  if key_points.length < 3 then
    ["Document processed successfully".data, "Content analysis completed".data,
     "Key information extracted".data]
  else key_points.filterMap (fun p => if (pyStrip p).isEmpty then none else some (pyStrip p))

/-- `ContentEnhancer._validate_qa_result` (lines 362-377). -/
def validate_qa_result (qa : List Text × List Text) (content : Text) :
    List Text × List Text :=
  if validate_qa_quality qa.1 qa.2 then qa else create_fallback_qa content

/-- `ContentEnhancer._validate_topics` (lines 379-389). -/
def validate_topics (topics : List Text) : List Text :=
  if topics.length < 3 then
    ["Main Content".data, "Key Information".data, "Document Analysis".data]
  else topics.filterMap (fun t => if (pyStrip t).isEmpty then none else some (pyStrip t))

/-- `ContentEnhancer._calculate_quality_score` (lines 448-476), floats as
exact rationals (`0.2 = 1/5`, `0.15 = 3/20`; every comparison against these
sums in this development is far from double rounding error). -/
def calculate_quality_score (summary : Text) (key_points questions answers : List Text) : ℚ :=
  let s1 : ℚ := if 100 ≤ summary.length then 1 / 5 else 0
  let s2 : ℚ := if 50 ≤ (pySplit summary).length then 1 / 5 else 0
  let s3 : ℚ := if 5 ≤ key_points.length then 3 / 20 else 0
  let s4 : ℚ := if key_points.all (fun p => decide (20 ≤ p.length)) then 3 / 20 else 0
  let s5 : ℚ := if 3 ≤ questions.length then 3 / 20 else 0
  let s6 : ℚ := if answers.all (fun a => decide (30 ≤ a.length)) then 3 / 20 else 0
  min (s1 + s2 + s3 + s4 + s5 + s6) 1

/-- The completion client seen from `enhance_document`'s four `llm.achat`
call sites; `none` is a raised error (each sub-task catches its own). -/
structure CompletionBehavior where
  summaryResp : Option Text
  keyPointsResp : Option Text
  qaResp : Option Text
  topicsResp : Option Text

/-- `ContentEnhancer._generate_summary` (lines 167-207). -/
def generate_summary (client : CompletionBehavior) (content title : Text) : Text :=
  match client.summaryResp with
  | some t => clean_llm_output (pyStrip t)
  | none => create_fallback_summary content title

/-- `ContentEnhancer._generate_key_points` (lines 209-249), keeping at most
`max_key_points = 8`. -/
def generate_key_points (client : CompletionBehavior) (content : Text) : List Text :=
  match client.keyPointsResp with
  | some t => (parse_numbered_list t).take 8
  | none => create_fallback_key_points content

/-- `ContentEnhancer._generate_qa_pairs` (lines 251-294). -/
def generate_qa_pairs (client : CompletionBehavior) (content : Text) :
    List Text × List Text :=
  match client.qaResp with
  | some t => parse_qa_pairs t
  | none => create_fallback_qa content

/-- `ContentEnhancer._extract_topics` (lines 296-335), keeping at most
`max_topics = 6`. -/
def extract_topics (client : CompletionBehavior) (content : Text) : List Text :=
  match client.topicsResp with
  | some t => (parse_topic_list t).take 6
  | none => create_fallback_topics content

/-- The dictionary returned by `enhance_document` (summary, key points, Q&A,
topics, and the metadata quality score). -/
structure EnhancedContent where
  summary : Text
  key_points : List Text
  questions : List Text
  answers : List Text
  topics : List Text
  quality_score : ℚ

/-- `DocumentProcessedEvent.get_content_preview` (workflow_events.py, lines
78-82). -/
def get_content_preview (raw : Text) (maxChars : Nat) : Text :=
  if raw.length ≤ maxChars then raw else raw.take maxChars ++ "...".data

/-- `ContentEnhancer._create_fallback_content` (lines 479-506): the
whole-stage fallback with the hardcoded `quality_score = 0.5`. -/
def create_fallback_content (title rawContent : Text) : EnhancedContent :=
  let preview := get_content_preview rawContent 1000
  { summary := create_fallback_summary preview title,
    key_points := create_fallback_key_points preview,
    questions := ["What is this document about?".data, "What are the main points?".data,
                  "How is the content structured?".data],
    answers := ["This document titled ".data ++ [aposChar] ++ title ++ [aposChar]
                  ++ " contains ".data ++ (Nat.repr rawContent.length).data
                  ++ " characters of content.".data,
                "The document has been processed and analyzed for key information and insights.".data,
                "The content is structured and ready for exploration and analysis.".data],
    topics := create_fallback_topics preview,
    quality_score := 1 / 2 }

/-- `ContentEnhancer.enhance_document` (lines 72-146): on the shared timeout
the whole stage degrades to `_create_fallback_content`; otherwise the four
sub-tasks run (each already total thanks to its own fallback), their outputs
are validated, and the structural quality score is computed. -/
def enhance_document (client : CompletionBehavior) (timedOut : Bool)
    (title rawContent : Text) : EnhancedContent :=
  if timedOut then create_fallback_content title rawContent
  else
    let content := prepare_content rawContent
    let summary := validate_summary (generate_summary client content title) content
    let key_points := validate_key_points (generate_key_points client content)
    let qa := validate_qa_result (generate_qa_pairs client content) content
    let topics := validate_topics (extract_topics client content)
    { summary := summary, key_points := key_points, questions := qa.1,
      answers := qa.2, topics := topics,
      quality_score := calculate_quality_score summary key_points qa.1 qa.2 }

theorem dropWhile_eq_self_of_head (p : Char → Bool) (l : Text)
    (h : ∀ c, l.head? = some c → p c = false) : l.dropWhile p = l := by
  cases l with
  | nil => rfl
  | cons c t => rw [List.dropWhile_cons, if_neg (by simp [h c rfl])]

/-- Stripping is the identity on a text whose first and last characters are
not whitespace. -/
theorem pyStrip_eq_self (l : Text)
    (h1 : ∀ c, l.head? = some c → isPySpace c = false)
    (h2 : ∀ c, l.getLast? = some c → isPySpace c = false) : pyStrip l = l := by
  unfold pyStrip
  rw [dropWhile_eq_self_of_head _ _ h1]
  rw [dropWhile_eq_self_of_head _ _ (fun c hc => h2 c (by rwa [List.head?_reverse] at hc))]
  exact List.reverse_reverse l

/-- Stripping is the identity on `pre ++ mid ++ post` when `pre` starts and
`post` ends with a non-space character. -/
theorem pyStrip_sandwich (pre mid post : Text) (c1 c2 : Char)
    (h1 : pre.head? = some c1) (hc1 : isPySpace c1 = false)
    (h2 : post.getLast? = some c2) (hc2 : isPySpace c2 = false) :
    pyStrip (pre ++ mid ++ post) = pre ++ mid ++ post := by
  apply pyStrip_eq_self
  · intro c hc
    rw [List.head?_append, List.head?_append, h1, Option.or_some, Option.or_some] at hc
    injection hc with h
    subst h
    exact hc1
  · intro c hc
    rw [List.getLast?_append, h2, Option.or_some] at hc
    injection hc with h
    subst h
    exact hc2

theorem create_fallback_summary_head (c t : Text) :
    (create_fallback_summary c t).head? = some 'T' := rfl

theorem create_fallback_summary_getLast (c t : Text) :
    (create_fallback_summary c t).getLast? = some '.' := by
  unfold create_fallback_summary
  simp only [List.getLast?_append,
    show (". The document has been processed and is ready for analysis and exploration.".data).getLast?
      = some '.' from rfl, Option.or_some]

theorem create_fallback_summary_strip (c t : Text) :
    pyStrip (create_fallback_summary c t) = create_fallback_summary c t :=
  pyStrip_eq_self _
    (fun ch hc => by
      rw [create_fallback_summary_head] at hc
      injection hc with h
      subst h
      rfl)
    (fun ch hc => by
      rw [create_fallback_summary_getLast] at hc
      injection hc with h
      subst h
      rfl)

theorem create_fallback_summary_length (c t : Text) :
    145 ≤ (create_fallback_summary c t).length := by
  unfold create_fallback_summary
  simp only [List.append_assoc, List.length_append, List.length_cons, List.length_nil,
    show ("This document titled ".data).length = 21 from rfl,
    show (" contains important information and insights. ".data).length = 46 from rfl,
    show (". The document has been processed and is ready for analysis and exploration.".data).length
      = 76 from rfl]
  omega

/-- The per-task Q&A fallback passes `validate_qa_quality` for every
content. -/
theorem validate_fallback_qa (content : Text) :
    validate_qa_quality (create_fallback_qa content).1 (create_fallback_qa content).2 = true := by
  have hstrip : pyStrip ("The document contains ".data ++ (Nat.repr content.length).data
      ++ " characters of detailed content and information.".data)
      = "The document contains ".data ++ (Nat.repr content.length).data
        ++ " characters of detailed content and information.".data :=
    pyStrip_sandwich _ _ _ 'T' '.' rfl rfl rfl rfl
  unfold validate_qa_quality create_fallback_qa
  simp only [List.zip, List.zipWith, List.all_cons, List.all_nil, Bool.and_eq_true,
    Bool.not_eq_true', beq_iff_eq, decide_eq_true_eq]
  rw [hstrip]
  repeat' apply And.intro
  all_goals first
    | decide
    | rfl
    | (simp only [List.length_cons, List.length_nil]; done)
    | (simp only [List.length_append, List.length_cons, List.length_nil]; omega)

theorem validate_summary_fallback (c t : Text) :
    validate_summary (create_fallback_summary c t) c = create_fallback_summary c t := by
  unfold validate_summary
  rw [create_fallback_summary_strip]
  rw [if_neg (by have := create_fallback_summary_length c t; omega)]

theorem validate_key_points_fallback (c : Text) :
    validate_key_points (create_fallback_key_points c) = create_fallback_key_points c := by
  have h2 : pyStrip ("Contains ".data ++ (Nat.repr c.length).data
      ++ " characters of content".data)
      = "Contains ".data ++ (Nat.repr c.length).data ++ " characters of content".data :=
    pyStrip_sandwich _ _ _ 'C' 't' rfl rfl rfl rfl
  unfold validate_key_points create_fallback_key_points
  rw [if_neg (by simp)]
  simp only [List.filterMap_cons, h2]
  rw [show pyStrip "Document successfully processed and analyzed".data
      = "Document successfully processed and analyzed".data from rfl]
  rw [show pyStrip "Ready for detailed exploration and analysis".data
      = "Ready for detailed exploration and analysis".data from rfl]
  rw [show pyStrip "Structured content available for querying".data
      = "Structured content available for querying".data from rfl]
  rw [show pyStrip "Comprehensive information extracted and organized".data
      = "Comprehensive information extracted and organized".data from rfl]
  rw [show (("Contains ".data ++ (Nat.repr c.length).data
      ++ " characters of content".data).isEmpty) = false from rfl]
  simp

theorem validate_qa_result_fallback (c : Text) :
    validate_qa_result (create_fallback_qa c) c = create_fallback_qa c := by
  unfold validate_qa_result
  rw [if_pos (validate_fallback_qa c)]

theorem validate_topics_fallback (c : Text) :
    validate_topics (create_fallback_topics c)
      = ["Document Content".data, "Main Information".data, "Key Details".data,
         "Analysis Results".data] := by
  rfl

theorem fallback_kp_all20 (c : Text) :
    (create_fallback_key_points c).all (fun p => decide (20 ≤ p.length)) = true := by
  unfold create_fallback_key_points
  simp only [List.all_cons, List.all_nil, Bool.and_eq_true, decide_eq_true_eq]
  repeat' apply And.intro
  all_goals first
    | decide
    | trivial
    | (simp only [List.length_append, List.length_cons, List.length_nil]; omega)

theorem fallback_ans_all30 (c : Text) :
    ((create_fallback_qa c).2).all (fun a => decide (30 ≤ a.length)) = true := by
  unfold create_fallback_qa
  simp only [List.all_cons, List.all_nil, Bool.and_eq_true, decide_eq_true_eq]
  repeat' apply And.intro
  all_goals first
    | decide
    | trivial
    | (simp only [List.length_append, List.length_cons, List.length_nil]; omega)

/-- The structural quality score of the per-task fallback content is at
least `0.8` (so well above the claim's degraded `0.5`). -/
theorem quality_fallback_ge (c t : Text) :
    4 / 5 ≤ calculate_quality_score (create_fallback_summary c t)
      (create_fallback_key_points c) (create_fallback_qa c).1 (create_fallback_qa c).2 := by
  unfold calculate_quality_score
  rw [if_pos (show (100 : Nat) ≤ (create_fallback_summary c t).length from by
    have := create_fallback_summary_length c t; omega)]
  rw [show (if 5 ≤ (create_fallback_key_points c).length then (3 : ℚ) / 20 else 0)
      = 3 / 20 from if_pos (by simp [create_fallback_key_points])]
  rw [show (if (create_fallback_key_points c).all (fun p => decide (20 ≤ p.length)) = true
        then (3 : ℚ) / 20 else 0) = 3 / 20 from if_pos (fallback_kp_all20 c)]
  rw [show (if 3 ≤ (create_fallback_qa c).1.length then (3 : ℚ) / 20 else 0)
      = 3 / 20 from if_pos (by simp [create_fallback_qa])]
  rw [show (if ((create_fallback_qa c).2).all (fun a => decide (30 ≤ a.length)) = true
        then (3 : ℚ) / 20 else 0) = 3 / 20 from if_pos (fallback_ans_all30 c)]
  apply le_min
  · have h2 : (0 : ℚ) ≤ if 50 ≤ (pySplit (create_fallback_summary c t)).length
        then 1 / 5 else 0 := by
      split_ifs <;> norm_num
    linarith
  · norm_num

/-- With every completion call failing and no timeout, `enhance_document`
returns exactly the per-task fallback content, and its computed quality
score is at least `0.8`. -/
theorem enhance_allfail_spec (client : CompletionBehavior)
    (hS : client.summaryResp = none) (hK : client.keyPointsResp = none)
    (hQ : client.qaResp = none) (hT : client.topicsResp = none) (title raw : Text) :
    enhance_document client false title raw
      = { summary := create_fallback_summary (prepare_content raw) title,
          key_points := create_fallback_key_points (prepare_content raw),
          questions := (create_fallback_qa (prepare_content raw)).1,
          answers := (create_fallback_qa (prepare_content raw)).2,
          topics := ["Document Content".data, "Main Information".data,
                     "Key Details".data, "Analysis Results".data],
          quality_score := calculate_quality_score
            (create_fallback_summary (prepare_content raw) title)
            (create_fallback_key_points (prepare_content raw))
            (create_fallback_qa (prepare_content raw)).1
            (create_fallback_qa (prepare_content raw)).2 } := by
  unfold enhance_document generate_summary generate_key_points generate_qa_pairs extract_topics
  rw [hS, hK, hQ, hT]
  simp only [Bool.false_eq_true, if_false]
  rw [validate_summary_fallback, validate_key_points_fallback, validate_qa_result_fallback]
  rw [show validate_topics (create_fallback_topics (prepare_content raw))
      = ["Document Content".data, "Main Information".data, "Key Details".data,
         "Analysis Results".data] from rfl]

/-- A completion client whose every call raises. -/
def clientAllFail : CompletionBehavior :=
  { summaryResp := none, keyPointsResp := none, qaResp := none, topicsResp := none }

/-- A model Q&A response containing exactly two well-formed pairs. -/
def c3qaText : Text :=
  ("Q1: What is the main subject of this document? "
    ++ "A1: The main subject is the greek alphabet and its ordering conventions. "
    ++ "Q2: What else does the document cover in detail? "
    ++ "A2: It also covers the historical context in which the letters were used.").data

/-- A client that fails three sub-tasks but returns the two-pair Q&A text. -/
def c3client : CompletionBehavior :=
  { summaryResp := none, keyPointsResp := none, qaResp := some c3qaText,
    topicsResp := none }

/-- C3: the Q&A minimum-count bug. A model response with exactly two
well-formed pairs passes `validate_qa_quality` (which checks pairing,
lengths and the `?` but has no minimum-count condition), so the Enrichment
Service returns an enrichment result with only 2 Q&A pairs — violating the
`≥ 3` invariant that the downstream `ContentEnhancedEvent` constructor
asserts (`"must have at least 3 Q&A pairs"`). -/
theorem code_bug_C3_two_pair_enrichment :
    (enhance_document c3client false "Greek Letters".data
        "A short document about the greek alphabet ordering.".data).questions.length = 2 ∧
    (enhance_document c3client false "Greek Letters".data
        "A short document about the greek alphabet ordering.".data).answers.length = 2 ∧
    validate_qa_quality (parse_qa_pairs c3qaText).1 (parse_qa_pairs c3qaText).2 = true := by
  refine ⟨rfl, rfl, rfl⟩

/-- C4 (amended): when the Completion Client raises on every call,
`enhance_document` still returns a result meeting every minimum-cardinality
invariant; but its quality score is the structural score of the fallback
content — at least `0.8`, not `≤ 0.5`. The hardcoded degraded score `0.5`
arises only from the whole-stage fallback (the shared timeout). -/
theorem claim_C4_fallback_quality (client : CompletionBehavior)
    (hS : client.summaryResp = none) (hK : client.keyPointsResp = none)
    (hQ : client.qaResp = none) (hT : client.topicsResp = none)
    (timedOut : Bool) (title raw : Text) :
    ((enhance_document client timedOut title raw).questions.length = 3 ∧
     (enhance_document client timedOut title raw).answers.length = 3 ∧
     3 ≤ (enhance_document client timedOut title raw).key_points.length ∧
     (enhance_document client timedOut title raw).summary ≠ [] ∧
     (enhance_document client timedOut title raw).topics ≠ []) ∧
    (timedOut = false → 4 / 5 ≤ (enhance_document client timedOut title raw).quality_score) ∧
    (timedOut = true → (enhance_document client timedOut title raw).quality_score = 1 / 2) := by
  cases timedOut
  · rw [enhance_allfail_spec client hS hK hQ hT title raw]
    simp only []
    refine ⟨⟨rfl, rfl, by simp [create_fallback_key_points], ?_, by simp⟩,
      fun _ => quality_fallback_ge _ _, fun h => nomatch h⟩
    intro h
    have hlen := create_fallback_summary_length (prepare_content raw) title
    rw [h] at hlen
    simp at hlen
  · rw [show enhance_document client true title raw = create_fallback_content title raw
      from rfl]
    unfold create_fallback_content
    simp only []
    refine ⟨⟨rfl, rfl, by simp [create_fallback_key_points], ?_,
      by simp [create_fallback_topics]⟩, by simp, by simp⟩
    intro h
    have hlen := create_fallback_summary_length (get_content_preview raw 1000) title
    rw [h] at hlen
    simp at hlen

/-- Witness for C4: the fallback result at a concrete short document. -/
theorem claim_C4_fallback_quality_witness :
    (enhance_document clientAllFail false "T".data "0123456789".data).questions.length = 3 ∧
    4 / 5 ≤ (enhance_document clientAllFail false "T".data "0123456789".data).quality_score := by
  have h := claim_C4_fallback_quality clientAllFail rfl rfl rfl rfl false "T".data
    "0123456789".data
  exact ⟨h.1.1, h.2.1 rfl⟩

/-- C4 counterexample: with the client raising on every call (and no
timeout), the returned quality score is NOT in the degraded `≤ 0.5` range —
the per-task fallback content scores `0.8` structurally. -/
theorem counterexample_C4_score_above_half :
    ¬ ((enhance_document clientAllFail false "T".data "0123456789".data).quality_score
        ≤ 1 / 2) := by
  intro hle
  rw [enhance_allfail_spec clientAllFail rfl rfl rfl rfl "T".data "0123456789".data] at hle
  simp only [] at hle
  have h2 := quality_fallback_ge (prepare_content "0123456789".data) "T".data
  linarith

/-! ## The pipeline orchestrator

`EnhancedWorkflowV2` (enhanced_workflow_v2.py) with the event validation of
`workflow_events.py`. The Docling extraction output is given as the raw
`(content, title)` pair; the mind-map generator is an oracle (`none` models
an exception escaping `generate_mind_map`). Each `@step` catches exceptions
and converts them to an error `StopEvent` with a stage name and a
`recoverable` flag, which terminates the workflow run. -/

/-- `DocumentProcessedEvent` (workflow_events.py, lines 18-82): the stored,
validated (stripped) fields. -/
structure DocumentProcessedEvent where
  raw_content : Text
  title : Text

/-- `DocumentProcessedEvent.__init__` validation (lines 37-48): non-empty
content whose stripped form has at least 10 characters, non-empty title;
the stored content and title are the stripped inputs. `none` models the
raised `ValueError`. -/
def mkDocumentProcessedEvent (raw_content title : Text) :
    Option DocumentProcessedEvent :=
  if raw_content.isEmpty ∨ (pyStrip raw_content).length < 10 then none
  else if title.isEmpty ∨ (pyStrip title).isEmpty then none
  else some { raw_content := pyStrip raw_content, title := pyStrip title }

/-- `ContentEnhancedEvent` (workflow_events.py, lines 85-133). -/
structure ContentEnhancedEvent where
  original : DocumentProcessedEvent
  summary : Text
  key_points : List Text
  questions : List Text
  answers : List Text
  topics : List Text
  quality_score : ℚ

/-- `ContentEnhancedEvent.__init__` validation (lines 104-127): substantial
summary (stripped length at least 50), equal-length Q&A lists with at least
3 pairs, at least 3 key points; stored fields are stripped. -/
def mkContentEnhancedEvent (orig : DocumentProcessedEvent) (e : EnhancedContent) :
    Option ContentEnhancedEvent :=
  if e.summary.isEmpty ∨ (pyStrip e.summary).length < 50 then none
  else if e.questions.length ≠ e.answers.length then none
  else if e.questions.length < 3 then none
  else if e.key_points.length < 3 then none
  else some { original := orig, summary := pyStrip e.summary,
              key_points := e.key_points.map pyStrip,
              questions := e.questions.map pyStrip,
              answers := e.answers.map pyStrip,
              topics := e.topics.map pyStrip,
              quality_score := e.quality_score }

/-- The success payload assembled by `finalize_workflow` (lines 259-288):
the fields the claims consult. `md_content` and `full_content` are both
`ev.original_document.raw_content`. -/
structure WorkflowResult where
  md_content : Text
  full_content : Text
  content_size : Nat
  quality_score : ℚ

/-- A finished run: the success result, or the error `StopEvent` payload
(`error_stage`, `recoverable`) that any step may return. -/
inductive WorkflowOutcome where
  | done (r : WorkflowResult)
  | failed (stage : Text) (recoverable : Bool)

def WorkflowOutcome.mdContent : WorkflowOutcome → Option Text
  | .done r => some r.md_content
  | .failed _ _ => none

def WorkflowOutcome.isDone : WorkflowOutcome → Bool
  | .done _ => true
  | .failed _ _ => false

def WorkflowOutcome.isFailed : WorkflowOutcome → Bool
  | .done _ => false
  | .failed _ _ => true

/-- The four steps of `EnhancedWorkflowV2` composed
(`process_document` → `enhance_content` → `generate_notebook` →
`finalize_workflow`), with the extraction result given as `(content, title)`
and the mind-map generator as an oracle. Validation failures of the typed
events are the steps' caught exceptions, mapped to the error stages and
`recoverable` flags of the source (lines 130-139, 173-185, 232-244). -/
def run_workflow (client : CompletionBehavior) (timedOut : Bool)
    (mindMapHtml : Option Text) (content title : Text) : WorkflowOutcome :=
  match mkDocumentProcessedEvent content title with
  | none => .failed "document_processing".data false
  | some ev =>
    let enhanced := enhance_document client timedOut ev.title ev.raw_content
    match mkContentEnhancedEvent ev enhanced with
    | none => .failed "content_enhancement".data true
    | some enhEv =>
      match mindMapHtml with
      | none => .failed "notebook_generation".data true
      | some html =>
        if html.isEmpty ∨ (pyStrip html).length < 50 then
          .failed "notebook_generation".data true
        else
          .done { md_content := enhEv.original.raw_content,
                  full_content := enhEv.original.raw_content,
                  content_size := enhEv.original.raw_content.length,
                  quality_score := enhEv.quality_score }

/-- C1 (amended): whatever the clients do, a successful run returns exactly
the whitespace-stripped extracted content, unaltered by any downstream
stage — so the preserved length is `len(D.content.strip())`, which equals
`len(D.content)` exactly when the extracted content has no leading or
trailing whitespace. -/
theorem claim_C1_content_preservation (client : CompletionBehavior)
    (timedOut : Bool) (mindMapHtml : Option Text) (content title : Text)
    (r : WorkflowResult)
    (h : run_workflow client timedOut mindMapHtml content title = .done r) :
    r.md_content = pyStrip content ∧ r.full_content = pyStrip content ∧
    r.md_content.length = (pyStrip content).length ∧ r.content_size = (pyStrip content).length := by
  unfold run_workflow at h
  rcases hev : mkDocumentProcessedEvent content title with _ | ev
  · rw [hev] at h
    simp only [] at h
    exact WorkflowOutcome.noConfusion h
  · rw [hev] at h
    simp only [] at h
    have hraw : ev.raw_content = pyStrip content := by
      unfold mkDocumentProcessedEvent at hev
      split_ifs at hev
      injection hev with he
      rw [← he]
    rcases henh : mkContentEnhancedEvent ev
        (enhance_document client timedOut ev.title ev.raw_content) with _ | enhEv
    · rw [henh] at h
      simp only [] at h
      exact WorkflowOutcome.noConfusion h
    · rw [henh] at h
      simp only [] at h
      have horig : enhEv.original = ev := by
        unfold mkContentEnhancedEvent at henh
        split_ifs at henh
        injection henh with he
        rw [← he]
      rcases mindMapHtml with _ | html
      · simp only [] at h
        exact WorkflowOutcome.noConfusion h
      · simp only [] at h
        by_cases hh : html.isEmpty ∨ (pyStrip html).length < 50
        · rw [if_pos hh] at h
          exact WorkflowOutcome.noConfusion h
        · rw [if_neg hh] at h
          injection h with hr
          rw [← hr]
          simp [horig, hraw]

/-- Extracted content with trailing whitespace (11 characters; its stripped
form has 10). -/
def c1content : Text := "0123456789\n".data

/-- A mind-map HTML oracle output clearing the 50-character validation. -/
def c1html : Text :=
  "<div>mind map canvas with at least fifty characters of markup</div>".data

/-- The concrete C1 run. -/
def c1run : WorkflowOutcome :=
  run_workflow clientAllFail false (some c1html) c1content "Title T".data

/-- C1 counterexample: the event constructor strips the extracted content,
so the content carried to the final artifact has length 10 while the
extracted content has length 11 — `len(result) == len(D.content)` fails. -/
theorem counterexample_C1_strip_alters_length :
    c1run.mdContent = some (pyStrip c1content) ∧
    c1content.length = 11 ∧ (pyStrip c1content).length = 10 := by
  refine ⟨rfl, rfl, rfl⟩

def c1resultRecord : WorkflowResult :=
  match c1run with
  | .done r => r
  | .failed _ _ => ⟨[], [], 0, 0⟩

/-- Witness for C1: the preservation theorem at the concrete run. -/
theorem claim_C1_content_preservation_witness :
    c1run = WorkflowOutcome.done c1resultRecord ∧
    c1resultRecord.md_content.length = (pyStrip c1content).length := by
  have h : c1run = WorkflowOutcome.done c1resultRecord := rfl
  exact ⟨h, (claim_C1_content_preservation clientAllFail false (some c1html) c1content
    "Title T".data c1resultRecord h).2.2.1⟩

/-- Valid extracted content for the C7 runs. -/
def c7content : Text := "A short document about the greek alphabet ordering.".data

/-- C7 counterexample: enriched output that fails event validation (the
two-pair Q&A of `c3client`) makes the enhancement step return the error
stop — the run terminates at the enrichment stage (flagged recoverable)
instead of substituting fallback content and continuing through assembly. -/
theorem counterexample_C7_enrichment_error_terminates :
    run_workflow c3client false (some c1html) c7content "Greek Letters".data
      = WorkflowOutcome.failed "content_enhancement".data true := by
  rfl

/-- With every completion call failing (or on timeout), the enriched content
passes the `ContentEnhancedEvent` validation. -/
theorem mkContentEnhancedEvent_allfail_isSome (client : CompletionBehavior)
    (hS : client.summaryResp = none) (hK : client.keyPointsResp = none)
    (hQ : client.qaResp = none) (hT : client.topicsResp = none)
    (timedOut : Bool) (ev : DocumentProcessedEvent) :
    (mkContentEnhancedEvent ev
      (enhance_document client timedOut ev.title ev.raw_content)).isSome = true := by
  cases timedOut
  · rw [enhance_allfail_spec client hS hK hQ hT ev.title ev.raw_content]
    unfold mkContentEnhancedEvent
    simp only []
    rw [if_neg ?h1, if_neg (by simp [create_fallback_qa]), if_neg (by simp [create_fallback_qa]),
      if_neg (by simp [create_fallback_key_points])]
    · rfl
    case h1 =>
      rw [create_fallback_summary_strip]
      have hlen := create_fallback_summary_length (prepare_content ev.raw_content) ev.title
      rintro (ha | hb)
      · rw [List.isEmpty_iff] at ha
        rw [ha] at hlen
        simp at hlen
      · omega
  · rw [show enhance_document client true ev.title ev.raw_content
      = create_fallback_content ev.title ev.raw_content from rfl]
    unfold mkContentEnhancedEvent create_fallback_content
    simp only []
    rw [if_neg ?h1, if_neg (by simp), if_neg (by simp),
      if_neg (by simp [create_fallback_key_points])]
    · rfl
    case h1 =>
      rw [create_fallback_summary_strip]
      have hlen := create_fallback_summary_length
        (get_content_preview ev.raw_content 1000) ev.title
      rintro (ha | hb)
      · rw [List.isEmpty_iff] at ha
        rw [ha] at hlen
        simp at hlen
      · omega

/-- C7 (amended): failures of the completion client inside the enrichment
service — including every call raising, or the shared timeout — are
recovered by the rule-based fallback: the run continues through assembly to
a successful result with the content preserved. (But enriched output that
fails event validation terminates the run: see the counterexample.) -/
theorem claim_C7_enrichment_failure_recovered (client : CompletionBehavior)
    (hS : client.summaryResp = none) (hK : client.keyPointsResp = none)
    (hQ : client.qaResp = none) (hT : client.topicsResp = none)
    (timedOut : Bool) (content title html : Text)
    (hev : (mkDocumentProcessedEvent content title).isSome = true)
    (hhtml1 : html.isEmpty = false) (hhtml2 : 50 ≤ (pyStrip html).length) :
    (run_workflow client timedOut (some html) content title).isDone = true ∧
    (run_workflow client timedOut (some html) content title).mdContent
      = some (pyStrip content) := by
  rcases h : mkDocumentProcessedEvent content title with _ | ev
  · rw [h] at hev
    simp at hev
  · have hraw : ev.raw_content = pyStrip content := by
      unfold mkDocumentProcessedEvent at h
      split_ifs at h
      injection h with he
      rw [← he]
    have hsome := mkContentEnhancedEvent_allfail_isSome client hS hK hQ hT timedOut ev
    unfold run_workflow
    rw [h]
    simp only []
    rcases ho : mkContentEnhancedEvent ev
        (enhance_document client timedOut ev.title ev.raw_content) with _ | enhEv
    · rw [ho] at hsome
      simp at hsome
    · have horig : enhEv.original = ev := by
        unfold mkContentEnhancedEvent at ho
        split_ifs at ho
        injection ho with he
        rw [← he]
      simp only []
      rw [if_neg (by rw [hhtml1]; simp; omega)]
      exact ⟨rfl, by show some enhEv.original.raw_content = _; rw [horig, hraw]⟩

/-- Witness for C7: the concrete all-failing-client run continues to a
successful result. -/
theorem claim_C7_enrichment_failure_recovered_witness :
    (run_workflow clientAllFail false (some c1html) c7content
      "Greek Letters".data).isDone = true :=
  (claim_C7_enrichment_failure_recovered clientAllFail rfl rfl rfl rfl false c7content
    "Greek Letters".data c1html rfl rfl (by decide)).1
